import Mathlib

/-!
Shallow embedding of `src/sandbox/gamv.py` (function `gamv`): the protocol
layer that validates a configuration, materializes in-memory data to a
temporary file, serializes a parameter file, invokes the external GSLIB
`gamv` engine as a subprocess, parses the engine's flat output stream into a
table keyed by (variogram, direction, lag), attaches per-variogram metadata,
and nulls out statistically degenerate cells.

Numeric data cells are modelled as `Rat`; missing values (Python `None` /
pandas `NaN`) as `Option.none`.  Side effects (file writes, the subprocess
call, printing) are modelled as an explicit effect trace.  The engine itself
is opaque: its behaviour (exit code, stdout, stderr, output-file rows) is a
parameter of the pipeline.
-/

namespace Gamv

/-- One row of the `ivpar` array: (tail variable, head variable, variogram
type, cutoff).  `cut` is `none` for Python `None`.  Mirrors the docstring
order "tail, head, variogram type, and cut (with shape [nvarg,4])". -/
structure IvparRow where
  tail : Int
  head : Int
  vtype : Int
  cut : Option Rat
deriving DecidableEq, Repr

instance : Inhabited IvparRow := ⟨⟨0, 0, 0, none⟩⟩

/-- The `datafl` entry of the parameters dict: a path, `None`, or an
in-memory 2-D numpy array (a list of rows). -/
inductive DataSource where
  | path (p : String)
  | null
  | array (rows : List (List Rat))
deriving DecidableEq, Repr

/-- The caller's parameters dictionary for `gamv` (keys per the docstring). -/
structure GamvParams where
  datafl : DataSource
  icolx : Int
  icoly : Int
  icolz : Int
  ivar : List Int
  tmin : Rat
  tmax : Rat
  outfl : Option String
  nlag : Nat
  xlag : Rat
  xltol : Rat
  ivdir : List (List Rat)
  standardize : Int
  ivpar : List IvparRow
deriving DecidableEq, Repr

/-- Python `~x` on an `int` (bitwise negation): `~x = -x - 1`. -/
def pyBitNot (x : Int) : Int := -x - 1

/-- Python `bool` as the `int` it is a subtype of: `True = 1`, `False = 0`. -/
def pyBoolToInt (b : Bool) : Int := if b then 1 else 0

/-- The gate of `if ~silent: print(stdout...)` at the end of a successful
run: the engine's stdout is echoed iff the Python int `~silent` is truthy
(nonzero). -/
def echoesEngineStdout (silent : Bool) : Bool :=
  !(pyBitNot (pyBoolToInt silent) == 0)

/-- `np.arange(0, stop, step)` for naturals: `0, step, 2*step, ...` below
`stop` (`⌈stop/step⌉` entries). -/
def npArangeStep (stop step : Nat) : List Nat :=
  (List.range ((stop + step - 1) / step)).map (· * step)

/-- `np.repeat(range(n), rep)`: each of `0..n-1` repeated `rep` times. -/
def npRepeat (n rep : Nat) : List Nat :=
  (List.range n).flatMap (fun i => List.replicate rep i)

/-- `np.tile(l, times)`: `times` concatenated copies of `l`. -/
def npTile (l : List Nat) (times : Nat) : List Nat :=
  (List.range times).flatMap (fun _ => l)

/-- The `skiprows` list `ignore = np.arange(0, nvarg*ndir*nlag + ndir*nvarg,
nlag+1)` computed at source lines 182-184, where `nlag` has already been
rebound to `mypar['nlag'] + 2` (so `nlagT` here is the original lag count
plus two). -/
def gamvIgnore (nvarg ndir nlagT : Nat) : List Nat :=
  npArangeStep (nvarg * ndir * nlagT + ndir * nvarg) (nlagT + 1)

/-- `pd.read_csv(..., skiprows = skip)`: drop the file rows whose 0-based
position is listed in `skip`, keep the rest in order. -/
def skipRows (rows : List α) (skip : List Nat) : List α :=
  ((rows.enum.filter (fun p => !(skip.contains p.1))).map Prod.snd)

/-- Whether the result table carries the two extra variance columns: source
line 188 tests `any(ivpar[:,2]==4)` (type code 4 = correlogram). -/
def hasVarianceCols (ivpar : List IvparRow) : Bool :=
  ivpar.any (fun r => r.vtype == 4)

/-- The column names handed to `pd.read_csv` (source lines 188-211): six
base columns, plus `variance tail` / `variance head` exactly when
`hasVarianceCols`. -/
def gamvColumns (ivpar : List IvparRow) : List String :=
  if hasVarianceCols ivpar then
    ["Lag", "average separation", "var funct", "number of pairs",
     "mean on tail", "mean on head", "variance tail", "variance head"]
  else
    ["Lag", "average separation", "var funct", "number of pairs",
     "mean on tail", "mean on head"]

/-- One row of the parsed result table `vg`, after the derived key columns
(`Variogram`, `Direction`) and the metadata columns (`tail`, `head`, `type`,
`cut`) have been added.  Data cells are `Option Rat` (`none` = NaN/None;
a field that is `none` because the file row was short, or because the
variance columns were not requested, behaves like a missing cell). -/
structure VgRow where
  lag : Option Rat
  avgSep : Option Rat
  varFunct : Option Rat
  npairs : Option Rat
  meanTail : Option Rat
  meanHead : Option Rat
  varTail : Option Rat
  varHead : Option Rat
  variogram : Nat
  direction : Nat
  tail : Int
  head : Int
  vtype : Int
  cut : Option Rat
deriving DecidableEq, Repr

instance : Inhabited VgRow :=
  ⟨⟨none, none, none, none, none, none, none, none, 0, 0, 0, 0, 0, none⟩⟩

/-- Build one table row from a parsed file row `r` (a list of whitespace
tokens) and the positional key columns; metadata columns start at the
initial values of source lines 212-215 (`0`, `0`, `0`, `None`). -/
def mkRow (hv : Bool) (r : List Rat) (vgIdx dirIdx : Nat) : VgRow :=
  { lag := r[0]?
    avgSep := r[1]?
    varFunct := r[2]?
    npairs := r[3]?
    meanTail := r[4]?
    meanHead := r[5]?
    varTail := if hv then r[6]? else none
    varHead := if hv then r[7]? else none
    variogram := vgIdx
    direction := dirIdx
    tail := 0
    head := 0
    vtype := 0
    cut := none }

/-- Overwrite the metadata columns of `r` from the variogram spec `d` when
`r` belongs to variogram `i` (one `vg.loc[vg['Variogram']==i, ...] = ...`
group of source lines 216-222). -/
def setMetaIf (d : IvparRow) (i : Nat) (r : VgRow) : VgRow :=
  if r.variogram = i then
    { r with tail := d.tail, head := d.head, vtype := d.vtype, cut := d.cut }
  else r

/-- The metadata loop `for i in range(len(parameters['ivpar'])): ...`
(source lines 216-222); note it reads the caller's original `parameters`
dict, not the mutated local `ivpar` array. -/
def assignMeta (defs : List IvparRow) (t : List VgRow) : List VgRow :=
  (List.range defs.length).foldl
    (fun acc i => acc.map (setMetaIf (defs.getD i default) i)) t

/-- Cleanup of one row (source lines 226-227): rows with zero pairs lose
`var funct` and both means; rows with zero average separation lose
`var funct`. -/
def cleanupRow (r : VgRow) : VgRow :=
  let r1 := if r.npairs = some 0 then
    { r with varFunct := none, meanTail := none, meanHead := none } else r
  if r1.avgSep = some 0 then { r1 with varFunct := none } else r1

/-- The Cleanup Pass applied to the whole table. -/
def cleanup (t : List VgRow) : List VgRow := t.map cleanupRow

/-- The whole result-table construction from the engine's output-file rows
(source lines 181-227): skip the computed header positions, attach the
positional `Variogram` / `Direction` keys, then the metadata columns.
(pandas requires the key-column lengths to match the row count; on the
well-formed outputs considered here they do, and out-of-range positions
default to 0.)  Cleanup is applied separately, after this. -/
def buildTable (hv : Bool) (nvarg ndir nlagT : Nat) (fileRows : List (List Rat))
    (defs : List IvparRow) : List VgRow :=
  let kept := skipRows fileRows (gamvIgnore nvarg ndir nlagT)
  let vgIdx := npRepeat nvarg (ndir * nlagT)
  let dirIdx := npTile (npRepeat ndir nlagT) nvarg
  let base := kept.enum.map (fun p => mkRow hv p.2 (vgIdx.getD p.1 0) (dirIdx.getD p.1 0))
  assignMeta defs base

/-- Column-name lines written when materializing an in-memory array with
`ncol` columns (source lines 115-121): always `x`, `y`, `z`, then `v1` ..
`v(ncol-3)` from `for i in range(3, ncol): f.write('v{i-2}')`. -/
def dataFileColNames (ncol : Nat) : List String :=
  ["x", "y", "z"] ++ (List.range' 3 (ncol - 3)).map (fun i => "v" ++ toString (i - 2))

/-- All header lines of the materialized temporary data file: title line,
column-count line, then the column-name lines. -/
def dataFileHeaderLines (ncol : Nat) : List String :=
  ["temp file ", toString ncol] ++ dataFileColNames ncol

/-- `np.arange(4, ncol+1)`: the variable columns forced for array input. -/
def forcedIvar (ncol : Nat) : List Int :=
  (List.range' 4 (ncol + 1 - 4)).map Int.ofNat

/-- The 9/10-cutoff error message of source line 143 (`'gslib varmap Error
inparameter file: cut[{}]=None'.format(i)`). -/
def cutErrMsg (i : Nat) : String :=
  "gslib varmap Error inparameter file: cut[" ++ toString i ++ "]=None"

/-- The validation/mutation loop of source lines 139-144, on the rows from
index `i` on: types below 9 get their cutoff overwritten with `None`; types
9/10 with a `None` cutoff raise. -/
def forceCutoffsFrom (i : Nat) : List IvparRow → Except String (List IvparRow)
  | [] => Except.ok []
  | r :: rs =>
    if r.vtype < 9 then
      (forceCutoffsFrom (i + 1) rs).map (fun rest => { r with cut := none } :: rest)
    else if r.cut = none then
      Except.error (cutErrMsg i)
    else
      (forceCutoffsFrom (i + 1) rs).map (fun rest => r :: rest)

/-- The cutoff loop run over the whole `ivpar` array. -/
def forceCutoffs (ivpar : List IvparRow) : Except String (List IvparRow) :=
  forceCutoffsFrom 0 ivpar

/-- Snapshot of the fields substituted into the parameter-file template
`__gamv_par` (source lines 147-160).  The exact text layout (the
whitespace-aligned `to_string` rendering) is not modelled; the snapshot
records which values reach the file, in particular the mutated `ivpar`
array whose type-1..8 cutoffs have been overwritten with `None`. -/
structure SerializedPar where
  datafl : String
  icolx : Int
  icoly : Int
  icolz : Int
  nvar : Nat
  ivar : List Int
  tmin : Rat
  tmax : Rat
  outfl : String
  nlag : Nat
  xlag : Rat
  xltol : Rat
  ndir : Nat
  ivdir : List (List Rat)
  standardize : Int
  nvarg : Nat
  ivpar : List IvparRow
deriving DecidableEq, Repr

/-- Observable side effects of one `gamv` call, in program order. -/
inductive GamvEffect where
  /-- Writing the temporary data file `_xxx_.in` for array input
  (source lines 113-122): header lines, then the numeric rows. -/
  | writeDataFile (name : String) (headerLines : List String) (rows : List (List Rat))
  /-- The unconditional `print(par)` of source line 158. -/
  | printPar (par : SerializedPar)
  /-- Writing the parameter file (source lines 159-161). -/
  | writeParFile (name : String) (par : SerializedPar)
  /-- The `subprocess.Popen([gslib_path, fpar], ...)` call (lines 165-169). -/
  | invokeEngine (path : String) (parfile : String)
  /-- Printing the engine's captured stdout (lines 175-179). -/
  | echo (text : String)
deriving DecidableEq, Repr

/-- Errors of the pipeline, in the spec's taxonomy.  In the Python source
a `ConfigurationError` is an `AssertionError` from one of the `assert`
statements or the `NameError` of line 143; an `EngineFailure` is the
`NameError` of line 172. -/
inductive GamvError where
  | configError (msg : String)
  | engineFailure (msg : String)
deriving DecidableEq, Repr

/-- The opaque engine's behaviour for one invocation: exit code, captured
streams, and the rows (whitespace-token lists) of the output file it leaves
behind. -/
structure EngineBehavior where
  exitCode : Int
  stdout : String
  stderr : String
  outputRows : List (List Rat)
deriving DecidableEq, Repr

deriving instance DecidableEq for Except

/-- Outcome of one `gamv` call: the effect trace, the returned table or the
raised error, and the caller's `parameters` object as it stands after the
call (the source deep-copies it at line 102 and never assigns into it; all
mutations below target the copy `mypar` or the local array `ivpar`). -/
structure GamvOutcome where
  effects : List GamvEffect
  result : Except GamvError (List VgRow)
  finalParameters : GamvParams
deriving DecidableEq, Repr

/-- The number of columns of a 2-D numpy array (`shape[1]`); rectangularity
is assumed (numpy would not build a 2-D array otherwise). -/
def ncolOf (rows : List (List Rat)) : Nat := (rows.headD []).length

/-- The `datafl` handling of source lines 104-126: array input forces the
coordinate/variable columns, rebinds `datafl` to `_xxx_.in` and writes the
temporary file; `None` input only rebinds `datafl`.  Returns the updated
copy `mypar` and the file-write effects. -/
def applyDataSource (parameters mypar : GamvParams) : GamvParams × List GamvEffect :=
  match parameters.datafl with
  | DataSource.array rows =>
    let ncol := ncolOf rows
    ({ mypar with
        datafl := DataSource.path "_xxx_.in"
        icolx := 1, icoly := 2, icolz := 3
        ivar := forcedIvar ncol },
     [GamvEffect.writeDataFile "_xxx_.in" (dataFileHeaderLines ncol) rows])
  | DataSource.null =>
    ({ mypar with datafl := DataSource.path "_xxx_.in" }, [])
  | DataSource.path _ => (mypar, [])

/-- The `outfl` defaulting of source lines 127-128. -/
def applyOutfl (mypar : GamvParams) : GamvParams :=
  match mypar.outfl with
  | none => { mypar with outfl := some "_xxx_.out" }
  | some _ => mypar

/-- `assert (ivdir.shape[1]==6)` (source line 134). -/
def ivdirShapeOk (mypar : GamvParams) : Bool :=
  mypar.ivdir.all (fun row => row.length == 6)

/-- `assert (all([i<=len(mypar['ivar']) for i in ivpar[:,0]]))` (line 136). -/
def tailsOk (mypar : GamvParams) : Bool :=
  mypar.ivpar.all (fun r => r.tail ≤ (mypar.ivar.length : Int))

/-- `assert (all([i<=len(mypar['ivar']) for i in ivpar[:,1]]))` (line 137). -/
def headsOk (mypar : GamvParams) : Bool :=
  mypar.ivpar.all (fun r => r.head ≤ (mypar.ivar.length : Int))

/-- `assert (set(ivpar[:,2]).issubset(set([1,...,10])))` (line 138). -/
def typesOk (mypar : GamvParams) : Bool :=
  mypar.ivpar.all (fun r =>
    ([1, 2, 3, 4, 5, 6, 7, 8, 9, 10] : List Int).contains r.vtype)

/-- The shape/index/type `assert` statements of source lines 131-138, in
order (`ivpar.shape[1]==4` is guaranteed by the `IvparRow` type).  Returns
the message of the first failing assert, if any. -/
def firstAssertFailure (mypar : GamvParams) : Option String :=
  if !ivdirShapeOk mypar then
    some "assert ivdir.shape[1]==6"
  else if !tailsOk mypar then
    some "assert tail variable column <= len(ivar)"
  else if !headsOk mypar then
    some "assert head variable column <= len(ivar)"
  else if !typesOk mypar then
    some "assert ivtype in 1..10"
  else
    none

/-- The string a `DataSource` renders as in the parameter file. -/
def dataflString : DataSource → String
  | DataSource.path p => p
  | DataSource.null => ""
  | DataSource.array _ => ""

/-- The parameter-file snapshot built at source lines 147-156 from the
mutated copy `mypar` and the cutoff-forced `ivpar` array. -/
def serializePar (mypar : GamvParams) (ivparForced : List IvparRow) : SerializedPar :=
  { datafl := dataflString mypar.datafl
    icolx := mypar.icolx, icoly := mypar.icoly, icolz := mypar.icolz
    nvar := mypar.ivar.length
    ivar := mypar.ivar
    tmin := mypar.tmin, tmax := mypar.tmax
    outfl := (mypar.outfl.getD "")
    nlag := mypar.nlag, xlag := mypar.xlag, xltol := mypar.xltol
    ndir := mypar.ivdir.length
    ivdir := mypar.ivdir
    standardize := mypar.standardize
    nvarg := ivparForced.length
    ivpar := ivparForced }

/-- Platform default for the engine executable (source lines 96-100). -/
def defaultGslibPath (posix : Bool) : String :=
  if posix then "~/gslib/gamv" else "c:\\gslib\\gamv.exe"

/-- The state of the local copy `mypar` after the data-source handling and
`outfl` defaulting (the deepcopy of line 102 initializes `mypar` with the
caller's values, hence the repeated argument). -/
def effectiveMypar (parameters : GamvParams) : GamvParams :=
  applyOutfl (applyDataSource parameters parameters).1

/-- The file-write effects of the data-source handling. -/
def dataSourceEffects (parameters : GamvParams) : List GamvEffect :=
  (applyDataSource parameters parameters).2

/-- The whole `gamv` call (source lines 37-237, plotting excluded as out of
scope): deep copy, data-source handling, output defaulting, validation,
serialization, engine invocation, stdout echo, result parsing/reshaping,
metadata join and cleanup, with every side effect recorded in order. -/
def gamv (parameters : GamvParams) (gslib_path : Option String) (silent : Bool)
    (posix : Bool) (engine : EngineBehavior) : GamvOutcome :=
  let path := match gslib_path with
    | none => defaultGslibPath posix
    | some p => p
  let effs1 := dataSourceEffects parameters
  let mypar := effectiveMypar parameters
  match firstAssertFailure mypar with
  | some msg =>
    { effects := effs1
      result := Except.error (GamvError.configError msg)
      finalParameters := parameters }
  | none =>
    match forceCutoffs mypar.ivpar with
    | Except.error msg =>
      { effects := effs1
        result := Except.error (GamvError.configError msg)
        finalParameters := parameters }
    | Except.ok ivparForced =>
      let par := serializePar mypar ivparForced
      let effs2 := effs1 ++ [GamvEffect.printPar par,
        GamvEffect.writeParFile "_xxx_.par" par,
        GamvEffect.invokeEngine path "_xxx_.par"]
      if engine.exitCode ≠ 0 then
        { effects := effs2
          result := Except.error (GamvError.engineFailure
            ("gslib declus NameError" ++ engine.stderr))
          finalParameters := parameters }
      else
        let effs3 := effs2 ++
          (if echoesEngineStdout silent then [GamvEffect.echo engine.stdout] else [])
        let nvarg := ivparForced.length
        let ndir := mypar.ivdir.length
        let nlagT := mypar.nlag + 2
        let table := buildTable (hasVarianceCols ivparForced) nvarg ndir nlagT
          engine.outputRows parameters.ivpar
        { effects := effs3
          result := Except.ok (cleanup table)
          finalParameters := parameters }

/-! ### Auxiliary definitions used by the statements and proofs -/

/-- The table returned by an outcome (empty on error). -/
def resultTable (o : GamvOutcome) : List VgRow :=
  match o.result with
  | Except.ok t => t
  | Except.error _ => []

/-- What the cutoff loop does to a single row that does not raise. -/
def forceRow (r : IvparRow) : IvparRow :=
  if r.vtype < 9 then { r with cut := none } else r

/-- Index of the first variogram spec with an indicator type (9/10) and a
`None` cutoff — the index whose row makes the cutoff loop raise. -/
def firstBadCut : List IvparRow → Option Nat
  | [] => none
  | r :: rs =>
    if 9 ≤ r.vtype ∧ r.cut = none then some 0
    else (firstBadCut rs).map (· + 1)

/-- The accumulated action of the metadata loop restricted to its first `n`
iterations: a row of variogram `< n` has its metadata overwritten from the
matching spec, any other row is untouched. -/
def applyMetaToN (defs : List IvparRow) (n : Nat) (r : VgRow) : VgRow :=
  if r.variogram < n then
    { r with
        tail := (defs.getD r.variogram default).tail
        head := (defs.getD r.variogram default).head
        vtype := (defs.getD r.variogram default).vtype
        cut := (defs.getD r.variogram default).cut }
  else r

/-- The accumulated action of the whole metadata loop. -/
def applyMetaTo (defs : List IvparRow) (r : VgRow) : VgRow :=
  applyMetaToN defs defs.length r

/-- `skipRows` generalized to an arbitrary starting file position. -/
def skipFrom (n : Nat) (rows : List α) (skip : List Nat) : List α :=
  ((rows.enumFrom n).filter (fun p => !(skip.contains p.1))).map Prod.snd

/-- The engine's documented output blocks in nesting order (outer loop =
variogram, inner = direction): for each pair, a header line and `nlagT`
data lines. -/
def gamvBlocks (nvarg ndir nlagT : Nat) (header : Nat → Nat → List Rat)
    (data : Nat → Nat → Nat → List Rat) : List (List Rat × List (List Rat)) :=
  (List.range nvarg).flatMap (fun v => (List.range ndir).map (fun d =>
    (header v d, (List.range nlagT).map (fun l => data v d l))))

/-- A well-formed engine output file: the blocks flattened to a stream of
lines, header first in each block. -/
def engineOutputFile (nvarg ndir nlagT : Nat) (header : Nat → Nat → List Rat)
    (data : Nat → Nat → Nat → List Rat) : List (List Rat) :=
  (gamvBlocks nvarg ndir nlagT header data).flatMap (fun b => b.1 :: b.2)

/-- The same file with the headers removed: only the data lines, in order. -/
def engineDataRows (nvarg ndir nlagT : Nat)
    (data : Nat → Nat → Nat → List Rat) : List (List Rat) :=
  (gamvBlocks nvarg ndir nlagT (fun _ _ => []) data).flatMap (fun b => b.2)

/-! ### Concrete instances used in witnesses and counterexamples -/

/-- A well-formed base configuration: one direction, one variable column,
one type-1 variogram, one lag. -/
def exParams : GamvParams :=
  { datafl := DataSource.null, icolx := 1, icoly := 2, icolz := 3, ivar := [4],
    tmin := -998, tmax := 100000, outfl := none, nlag := 1, xlag := 1, xltol := 1,
    ivdir := [[0, 90, 10, 0, 90, 10]], standardize := 0,
    ivpar := [⟨1, 1, 1, some 5⟩] }

/-- A successful engine run for `exParams`: one header line and three data
lines (lags 0..2); the lag-0 line has zero separation, the last line has a
zero pair count. -/
def exEngineOk : EngineBehavior :=
  { exitCode := 0, stdout := "GAMV Version: 2.905", stderr := "",
    outputRows := [[9, 9], [0, 0, 1, 2, 3, 4], [1, 1, 2, 7, 3, 4], [2, 2, 3, 0, 3, 4]] }

/-- A failing engine run. -/
def exEngineFail : EngineBehavior :=
  { exitCode := 1, stdout := "", stderr := "ERROR: bad parameter file",
    outputRows := [] }

/-- Three variogram specs of which exactly one is of covariance type (3). -/
def exC1ivpar : List IvparRow := [⟨1, 1, 1, none⟩, ⟨1, 1, 3, none⟩, ⟨1, 2, 2, none⟩]

/-- A configuration whose second variogram spec is indicator type 9 with a
`None` cutoff (first offending index = 1). -/
def exC3badParams : GamvParams :=
  { exParams with ivpar := [⟨1, 1, 1, none⟩, ⟨1, 1, 9, none⟩] }

/-- A configuration whose only variogram spec has tail index 2 while only
one variable column exists. -/
def exC8params : GamvParams :=
  { exParams with ivpar := [⟨2, 1, 1, none⟩] }

/-- A 2-column in-memory data array. -/
def exRows2 : List (List Rat) := [[1, 2], [3, 4]]

/-- The base configuration with a 2-column in-memory array as data source. -/
def exArray2Params : GamvParams :=
  { exParams with datafl := DataSource.array exRows2 }

/-- A 4-column in-memory data array. -/
def exRows4 : List (List Rat) := [[1, 2, 3, 4], [5, 6, 7, 8]]

/-- The base configuration with a 4-column in-memory array as data source. -/
def exArray4Params : GamvParams :=
  { exParams with datafl := DataSource.array exRows4 }

/-- A header-line generator for a well-formed engine output. -/
def exHeader : Nat → Nat → List Rat := fun _ _ => [9, 9]

/-- A data-line generator for a well-formed engine output. -/
def exData : Nat → Nat → Nat → List Rat :=
  fun v d l => [(l : Rat), 1, 2, 3, (v : Rat), (d : Rat)]

/-- Two variogram specs used in the parse/reshape witness. -/
def exDefsC2 : List IvparRow := [⟨1, 1, 1, none⟩, ⟨2, 2, 2, none⟩]

/-- A result-table row with a zero pair count (and nonzero separation). -/
def exRowPairsZero : VgRow :=
  { lag := some 1, avgSep := some 3, varFunct := some 7, npairs := some 0,
    meanTail := some 1, meanHead := some 2, varTail := none, varHead := none,
    variogram := 0, direction := 0, tail := 1, head := 1, vtype := 1, cut := none }

/-! ## Helper lemmas -/

theorem dataSourceEffects_no_invoke (params : GamvParams) (p f : String) :
    GamvEffect.invokeEngine p f ∉ dataSourceEffects params := by
  unfold dataSourceEffects applyDataSource
  cases hd : params.datafl <;> simp [hd]

theorem dataSourceEffects_no_parfile (params : GamvParams) (n : String)
    (sp : SerializedPar) :
    GamvEffect.writeParFile n sp ∉ dataSourceEffects params := by
  unfold dataSourceEffects applyDataSource
  cases hd : params.datafl <;> simp [hd]

theorem effectiveMypar_ivpar (params : GamvParams) :
    (effectiveMypar params).ivpar = params.ivpar := by
  unfold effectiveMypar
  have h1 : (applyDataSource params params).1.ivpar = params.ivpar := by
    unfold applyDataSource
    cases hd : params.datafl <;> simp [hd]
  unfold applyOutfl
  cases ho : (applyDataSource params params).1.outfl <;> simp [ho, h1]

theorem applyOutfl_preserves (m : GamvParams) :
    (applyOutfl m).icolx = m.icolx ∧ (applyOutfl m).icoly = m.icoly ∧
    (applyOutfl m).icolz = m.icolz ∧ (applyOutfl m).ivar = m.ivar := by
  unfold applyOutfl
  cases ho : m.outfl <;> simp

theorem dataFileColNames_eq (ncol : Nat) :
    dataFileColNames ncol =
      ["x", "y", "z"] ++
        (List.range (ncol - 3)).map (fun j => "v" ++ toString (j + 1)) := by
  unfold dataFileColNames
  rw [List.range'_eq_map_range, List.map_map]
  refine congrArg _ (List.map_congr_left fun j _ => ?_)
  have h3 : 3 + j - 2 = j + 1 := by omega
  simp [Function.comp, h3]

theorem forcedIvar_eq (ncol : Nat) :
    forcedIvar ncol =
      (List.range (ncol - 3)).map (fun j => ((j + 4 : Nat) : Int)) := by
  unfold forcedIvar
  have h4 : ncol + 1 - 4 = ncol - 3 := by omega
  rw [h4, List.range'_eq_map_range, List.map_map]
  refine List.map_congr_left fun j _ => ?_
  simp only [Function.comp, Int.ofNat_eq_natCast]
  omega

theorem firstAssertFailure_isSome_of_bad (m : GamvParams)
    (h : ∃ r ∈ m.ivpar,
      (m.ivar.length : Int) < r.tail ∨ (m.ivar.length : Int) < r.head ∨
      ¬(([1, 2, 3, 4, 5, 6, 7, 8, 9, 10] : List Int).contains r.vtype = true)) :
    ∃ msg, firstAssertFailure m = some msg := by
  obtain ⟨r, hr, hbad⟩ := h
  unfold firstAssertFailure
  by_cases c1 : ivdirShapeOk m = true
  · by_cases c2 : tailsOk m = true
    · by_cases c3 : headsOk m = true
      · by_cases c4 : typesOk m = true
        · exfalso
          unfold tailsOk at c2
          unfold headsOk at c3
          unfold typesOk at c4
          rw [List.all_eq_true] at c2 c3 c4
          rcases hbad with hb | hb | hb
          · exact absurd (of_decide_eq_true (c2 r hr)) (not_le.mpr hb)
          · exact absurd (of_decide_eq_true (c3 r hr)) (not_le.mpr hb)
          · exact absurd (c4 r hr) hb
        · exact ⟨"assert ivtype in 1..10", by simp [c1, c2, c3, c4]⟩
      · exact ⟨"assert head variable column <= len(ivar)", by simp [c1, c2, c3]⟩
    · exact ⟨"assert tail variable column <= len(ivar)", by simp [c1, c2]⟩
  · exact ⟨"assert ivdir.shape[1]==6", by simp [c1]⟩

theorem cleanupRow_preserves (r : VgRow) :
    (cleanupRow r).lag = r.lag ∧ (cleanupRow r).avgSep = r.avgSep ∧
    (cleanupRow r).npairs = r.npairs ∧ (cleanupRow r).varTail = r.varTail ∧
    (cleanupRow r).varHead = r.varHead ∧ (cleanupRow r).variogram = r.variogram ∧
    (cleanupRow r).direction = r.direction ∧ (cleanupRow r).tail = r.tail ∧
    (cleanupRow r).head = r.head ∧ (cleanupRow r).vtype = r.vtype ∧
    (cleanupRow r).cut = r.cut := by
  unfold cleanupRow
  by_cases h1 : r.npairs = some 0 <;> by_cases h2 : r.avgSep = some 0 <;>
    simp [h1, h2]

theorem cleanupRow_idem (r : VgRow) : cleanupRow (cleanupRow r) = cleanupRow r := by
  unfold cleanupRow
  by_cases h1 : r.npairs = some 0 <;> by_cases h2 : r.avgSep = some 0 <;>
    simp [h1, h2]

theorem forceCutoffsFrom_ok (l : List IvparRow) (i : Nat)
    (h : firstBadCut l = none) :
    forceCutoffsFrom i l = Except.ok (l.map forceRow) := by
  induction l generalizing i with
  | nil => rfl
  | cons r rs ih =>
    unfold firstBadCut at h
    by_cases hb : 9 ≤ r.vtype ∧ r.cut = none
    · simp [hb] at h
    · rw [if_neg hb, Option.map_eq_none'] at h
      unfold forceCutoffsFrom
      by_cases h9 : r.vtype < 9
      · rw [if_pos h9, ih _ h]
        simp [Except.map, forceRow, h9]
      · have hc : ¬r.cut = none := fun hcn => hb ⟨by omega, hcn⟩
        rw [if_neg h9, if_neg hc, ih _ h]
        simp [Except.map, forceRow, h9]

theorem forceCutoffsFrom_ok_eq (l : List IvparRow) (i : Nat) (out : List IvparRow)
    (h : forceCutoffsFrom i l = Except.ok out) : out = l.map forceRow := by
  induction l generalizing i out with
  | nil =>
    unfold forceCutoffsFrom at h
    simp at h
    simp [h]
  | cons r rs ih =>
    unfold forceCutoffsFrom at h
    by_cases h9 : r.vtype < 9
    · rw [if_pos h9] at h
      cases hrec : forceCutoffsFrom (i + 1) rs with
      | error e => rw [hrec] at h; simp [Except.map] at h
      | ok rest =>
        rw [hrec] at h
        simp only [Except.map] at h
        cases h
        simp [forceRow, h9, ih _ _ hrec]
    · rw [if_neg h9] at h
      by_cases hc : r.cut = none
      · rw [if_pos hc] at h
        simp at h
      · rw [if_neg hc] at h
        cases hrec : forceCutoffsFrom (i + 1) rs with
        | error e => rw [hrec] at h; simp [Except.map] at h
        | ok rest =>
          rw [hrec] at h
          simp only [Except.map] at h
          cases h
          simp [forceRow, h9, ih _ _ hrec]

theorem forceCutoffsFrom_error (l : List IvparRow) (i k : Nat)
    (h : firstBadCut l = some k) :
    forceCutoffsFrom i l = Except.error (cutErrMsg (i + k)) := by
  induction l generalizing i k with
  | nil => simp [firstBadCut] at h
  | cons r rs ih =>
    unfold firstBadCut at h
    by_cases hb : 9 ≤ r.vtype ∧ r.cut = none
    · rw [if_pos hb] at h
      cases h
      unfold forceCutoffsFrom
      have h9 : ¬r.vtype < 9 := by omega
      rw [if_neg h9, if_pos hb.2]
      simp
    · rw [if_neg hb] at h
      cases hfb : firstBadCut rs with
      | none => rw [hfb] at h; simp at h
      | some k' =>
        rw [hfb] at h
        simp only [Option.map_some'] at h
        cases h
        have hik : i + 1 + k' = i + (k' + 1) := by omega
        unfold forceCutoffsFrom
        by_cases h9 : r.vtype < 9
        · rw [if_pos h9, ih _ _ hfb, hik]
          rfl
        · have hc : ¬r.cut = none := fun hcn => hb ⟨by omega, hcn⟩
          rw [if_neg h9, if_neg hc, ih _ _ hfb, hik]
          rfl

theorem firstBadCut_spec (l : List IvparRow) (i : Nat) (hi : i < l.length)
    (hbad : 9 ≤ (l.getD i default).vtype ∧ (l.getD i default).cut = none)
    (hmin : ∀ j, j < i →
      ¬(9 ≤ (l.getD j default).vtype ∧ (l.getD j default).cut = none)) :
    firstBadCut l = some i := by
  induction l generalizing i with
  | nil => simp at hi
  | cons r rs ih =>
    cases i with
    | zero =>
      simp only [List.getD_cons_zero] at hbad
      unfold firstBadCut
      rw [if_pos hbad]
    | succ i =>
      have h0 : ¬(9 ≤ r.vtype ∧ r.cut = none) := by
        have := hmin 0 (Nat.succ_pos i)
        simpa using this
      unfold firstBadCut
      rw [if_neg h0]
      rw [ih i (by simpa using hi) (by simpa using hbad)
        (fun j hj => by simpa using hmin (j + 1) (by omega))]
      rfl

theorem assignMetaAux (defs : List IvparRow) (t : List VgRow) (n : Nat) :
    (List.range n).foldl
        (fun acc i => acc.map (setMetaIf (defs.getD i default) i)) t
      = t.map (applyMetaToN defs n) := by
  induction n with
  | zero =>
    have h0 : applyMetaToN defs 0 = fun r => r :=
      funext fun r => by simp [applyMetaToN]
    simp [h0]
  | succ n ih =>
    rw [List.range_succ, List.foldl_append, ih]
    simp only [List.foldl_cons, List.foldl_nil]
    rw [List.map_map]
    refine List.map_congr_left fun r _ => ?_
    simp only [Function.comp]
    unfold applyMetaToN setMetaIf
    by_cases h1 : r.variogram < n
    · have h1' : r.variogram < n + 1 := by omega
      have hne : ¬(r.variogram = n) := by omega
      simp [h1, h1', hne]
    · by_cases h2 : r.variogram = n
      · have h1' : r.variogram < n + 1 := by omega
        simp [h1, h1', h2]
      · have h1' : ¬(r.variogram < n + 1) := by omega
        simp [h1, h1', h2]

theorem assignMeta_eq_map (defs : List IvparRow) (t : List VgRow) :
    assignMeta defs t = t.map (applyMetaTo defs) :=
  assignMetaAux defs t defs.length

theorem applyMetaTo_fields (defs : List IvparRow) (r : VgRow) :
    (applyMetaTo defs r).variogram = r.variogram ∧
    (applyMetaTo defs r).direction = r.direction ∧
    (applyMetaTo defs r).lag = r.lag ∧
    (applyMetaTo defs r).avgSep = r.avgSep ∧
    (applyMetaTo defs r).varFunct = r.varFunct ∧
    (applyMetaTo defs r).npairs = r.npairs ∧
    (applyMetaTo defs r).meanTail = r.meanTail ∧
    (applyMetaTo defs r).meanHead = r.meanHead ∧
    (r.variogram < defs.length →
      (applyMetaTo defs r).tail = (defs.getD r.variogram default).tail ∧
      (applyMetaTo defs r).head = (defs.getD r.variogram default).head ∧
      (applyMetaTo defs r).vtype = (defs.getD r.variogram default).vtype ∧
      (applyMetaTo defs r).cut = (defs.getD r.variogram default).cut) ∧
    (¬r.variogram < defs.length → applyMetaTo defs r = r) := by
  unfold applyMetaTo applyMetaToN
  by_cases h : r.variogram < defs.length <;> simp [h]

theorem skipRows_eq_skipFrom (rows : List α) (skip : List Nat) :
    skipRows rows skip = skipFrom 0 rows skip := rfl

theorem skipFrom_append (n : Nat) (a b : List α) (skip : List Nat) :
    skipFrom n (a ++ b) skip =
      skipFrom n a skip ++ skipFrom (n + a.length) b skip := by
  unfold skipFrom
  rw [List.enumFrom_append, List.filter_append, List.map_append]

theorem npArangeStep_exact (N s : Nat) (hs : 0 < s) :
    npArangeStep (N * s) s = (List.range N).map (· * s) := by
  unfold npArangeStep
  congr 2
  have h1 : N * s + s - 1 = (s - 1) + N * s := by omega
  rw [h1, Nat.add_mul_div_right _ _ hs, Nat.div_eq_of_lt (by omega)]
  omega

theorem contains_npArangeStep (N s i : Nat) (hs : 0 < s) :
    (npArangeStep (N * s) s).contains i = true ↔ s ∣ i ∧ i < N * s := by
  rw [npArangeStep_exact N s hs, List.elem_iff]
  simp only [List.mem_map, List.mem_range]
  constructor
  · rintro ⟨j, hj, rfl⟩
    exact ⟨Dvd.intro_left j rfl, by
      exact Nat.mul_lt_mul_of_lt_of_le hj (Nat.le_refl s) hs⟩
  · rintro ⟨⟨q, rfl⟩, hlt⟩
    refine ⟨q, ?_, by ring⟩
    by_contra hq
    push_neg at hq
    exact absurd hlt (by
      rw [Nat.mul_comm s q]
      exact Nat.not_lt.mpr (Nat.mul_le_mul_right s hq))

theorem skipFrom_header_block (L N j : Nat) (hj : j < N) (x : α) (xs : List α)
    (hxs : xs.length = L) :
    skipFrom (j * (L + 1)) (x :: xs) (npArangeStep (N * (L + 1)) (L + 1)) = xs := by
  unfold skipFrom
  rw [List.enumFrom_cons, List.filter_cons]
  have hc : (npArangeStep (N * (L + 1)) (L + 1)).contains (j * (L + 1)) = true := by
    rw [contains_npArangeStep _ _ _ (by omega)]
    exact ⟨Dvd.intro_left j rfl, by
      have := Nat.mul_lt_mul_of_lt_of_le hj (Nat.le_refl (L + 1)) (by omega)
      exact this⟩
  rw [hc]
  simp only [Bool.not_true, Bool.false_eq_true, if_false]
  have hkeep : ∀ p ∈ xs.enumFrom (j * (L + 1) + 1),
      (!(npArangeStep (N * (L + 1)) (L + 1)).contains p.1) = true := by
    intro p hp
    obtain ⟨hlo, hhi, _⟩ := List.mem_enumFrom (x := p.2) (i := p.1)
      (j := j * (L + 1) + 1) (by simpa using hp)
    rw [Bool.not_eq_true', ← Bool.not_eq_true]
    intro hcont
    obtain ⟨⟨q, hq⟩, _⟩ := (contains_npArangeStep N (L + 1) p.1 (by omega)).mp hcont
    rw [hxs] at hhi
    have hcomm : (L + 1) * j = j * (L + 1) := Nat.mul_comm _ _
    have hexp : (j + 1) * (L + 1) = j * (L + 1) + L + 1 := by ring
    have h1 : (L + 1) * j < (L + 1) * q := by omega
    have h2 : (L + 1) * q < (L + 1) * (j + 1) := by
      have hcomm2 : (L + 1) * (j + 1) = (j + 1) * (L + 1) := Nat.mul_comm _ _
      omega
    have hq1 : j < q := Nat.lt_of_mul_lt_mul_left h1
    have hq2 : q < j + 1 := Nat.lt_of_mul_lt_mul_left h2
    omega
  rw [List.filter_eq_self.mpr hkeep]
  exact List.enumFrom_map_snd _ _

theorem skipFrom_flatMap_blocks (L N : Nat) (blocks : List (List Rat × List (List Rat)))
    (j : Nat) (hlen : ∀ b ∈ blocks, b.2.length = L) (hj : j + blocks.length ≤ N) :
    skipFrom (j * (L + 1)) (blocks.flatMap (fun b => b.1 :: b.2))
        (npArangeStep (N * (L + 1)) (L + 1)) =
      blocks.flatMap (fun b => b.2) := by
  induction blocks generalizing j with
  | nil => rfl
  | cons b bs ih =>
    rw [List.flatMap_cons, skipFrom_append]
    have hlb : (b.1 :: b.2).length = L + 1 := by
      simp [hlen b (List.mem_cons_self b bs)]
    rw [hlb]
    rw [skipFrom_header_block L N j (by simp at hj; omega) b.1 b.2
      (hlen b (List.mem_cons_self b bs))]
    have harith : j * (L + 1) + (L + 1) = (j + 1) * (L + 1) := by ring
    rw [harith, ih (j + 1) (fun c hc => hlen c (List.mem_cons_of_mem b hc))
      (by simp only [List.length_cons] at hj; omega)]
    rw [List.flatMap_cons]

theorem gamvBlocks_length (nvarg ndir L : Nat) (header : Nat → Nat → List Rat)
    (data : Nat → Nat → Nat → List Rat) :
    (gamvBlocks nvarg ndir L header data).length = nvarg * ndir := by
  unfold gamvBlocks
  rw [List.length_flatMap]
  have hrep : List.map (List.length ∘ fun v => (List.range ndir).map (fun d =>
        (header v d, (List.range L).map (fun l => data v d l)))) (List.range nvarg) =
      List.replicate nvarg ndir := by
    rw [List.eq_replicate_iff]
    constructor
    · simp
    · intro b hb
      simp only [List.mem_map] at hb
      obtain ⟨v, _, rfl⟩ := hb
      simp
  rw [hrep, List.sum_replicate, smul_eq_mul]

theorem gamvBlocks_snd_length (nvarg ndir L : Nat) (header : Nat → Nat → List Rat)
    (data : Nat → Nat → Nat → List Rat) :
    ∀ b ∈ gamvBlocks nvarg ndir L header data, b.2.length = L := by
  intro b hb
  unfold gamvBlocks at hb
  simp only [List.mem_flatMap, List.mem_map, List.mem_range] at hb
  obtain ⟨v, _, d, _, rfl⟩ := hb
  simp

theorem flatMap_snd_length (blocks : List (List Rat × List (List Rat))) (L : Nat)
    (h : ∀ b ∈ blocks, b.2.length = L) :
    (blocks.flatMap (fun b => b.2)).length = blocks.length * L := by
  induction blocks with
  | nil => simp
  | cons b bs ih =>
    rw [List.flatMap_cons, List.length_append, ih
      (fun c hc => h c (List.mem_cons_of_mem b hc)),
      h b (List.mem_cons_self b bs), List.length_cons]
    ring

theorem parse_wellFormed (nvarg ndir L : Nat) (header : Nat → Nat → List Rat)
    (data : Nat → Nat → Nat → List Rat) :
    skipRows (engineOutputFile nvarg ndir L header data) (gamvIgnore nvarg ndir L) =
      (gamvBlocks nvarg ndir L header data).flatMap (fun b => b.2) := by
  rw [skipRows_eq_skipFrom]
  unfold gamvIgnore engineOutputFile
  have hstop : nvarg * ndir * L + ndir * nvarg = (nvarg * ndir) * (L + 1) := by ring
  rw [hstop, show (0 : Nat) = 0 * (L + 1) from by ring]
  apply skipFrom_flatMap_blocks
  · exact gamvBlocks_snd_length nvarg ndir L header data
  · rw [gamvBlocks_length]
    omega

theorem kept_length (nvarg ndir L : Nat) (header : Nat → Nat → List Rat)
    (data : Nat → Nat → Nat → List Rat) :
    (skipRows (engineOutputFile nvarg ndir L header data)
      (gamvIgnore nvarg ndir L)).length = nvarg * ndir * L := by
  rw [parse_wellFormed, flatMap_snd_length _ L (gamvBlocks_snd_length nvarg ndir L header data),
    gamvBlocks_length]

theorem npRepeat_succ (n rep : Nat) :
    npRepeat (n + 1) rep = npRepeat n rep ++ List.replicate rep n := by
  unfold npRepeat
  rw [List.range_succ, List.flatMap_append]
  simp

theorem npRepeat_length (n rep : Nat) : (npRepeat n rep).length = n * rep := by
  induction n with
  | zero => simp [npRepeat]
  | succ n ih =>
    rw [npRepeat_succ, List.length_append, ih, List.length_replicate]
    ring

theorem npRepeat_getElem? (n rep k : Nat) (hk : k < n * rep) :
    (npRepeat n rep)[k]? = some (k / rep) := by
  induction n with
  | zero => omega
  | succ n ih =>
    rw [npRepeat_succ, List.getElem?_append]
    by_cases h : k < (npRepeat n rep).length
    · rw [if_pos h]
      exact ih (by rwa [npRepeat_length] at h)
    · rw [if_neg h]
      rw [npRepeat_length] at h
      rw [npRepeat_length, List.getElem?_replicate]
      have hexp : (n + 1) * rep = n * rep + rep := by ring
      have hlt : k - n * rep < rep := by omega
      rw [if_pos hlt]
      have hdiv : k / rep = n :=
        Nat.div_eq_of_lt_le (by omega) (by omega)
      rw [hdiv]

theorem npTile_succ (l : List Nat) (t : Nat) :
    npTile l (t + 1) = npTile l t ++ l := by
  unfold npTile
  rw [List.range_succ, List.flatMap_append]
  simp

theorem npTile_length (l : List Nat) (t : Nat) :
    (npTile l t).length = t * l.length := by
  induction t with
  | zero => simp [npTile]
  | succ t ih =>
    rw [npTile_succ, List.length_append, ih]
    ring

theorem npTile_getElem? (l : List Nat) (t k : Nat) (hk : k < t * l.length) :
    (npTile l t)[k]? = l[k % l.length]? := by
  induction t with
  | zero => omega
  | succ t ih =>
    rw [npTile_succ, List.getElem?_append]
    by_cases h : k < (npTile l t).length
    · rw [if_pos h]
      exact ih (by rwa [npTile_length] at h)
    · rw [if_neg h]
      rw [npTile_length] at h
      have hexp : (t + 1) * l.length = t * l.length + l.length := by ring
      have hlen : 0 < l.length := by omega
      have hlt : k - t * l.length < l.length := by omega
      have hmod : k % l.length = k - t * l.length := by
        conv_lhs => rw [show k = l.length * t + (k - t * l.length) by
          rw [Nat.mul_comm l.length t]; omega]
        rw [Nat.mul_add_mod]
        exact Nat.mod_eq_of_lt hlt
      rw [hmod, npTile_length]

theorem buildTable_getD (hv : Bool) (nvarg ndir L : Nat)
    (fileRows : List (List Rat)) (defs : List IvparRow) (k : Nat)
    (hkept : (skipRows fileRows (gamvIgnore nvarg ndir L)).length = nvarg * ndir * L)
    (hk : k < nvarg * ndir * L) :
    (buildTable hv nvarg ndir L fileRows defs).getD k default =
      applyMetaTo defs
        (mkRow hv ((skipRows fileRows (gamvIgnore nvarg ndir L)).getD k [])
          (k / (ndir * L)) ((k / L) % ndir)) := by
  have hpos : 0 < ndir * L := by
    rcases Nat.eq_zero_or_pos (ndir * L) with h0 | h0
    · rw [Nat.mul_assoc, h0, Nat.mul_zero] at hk; omega
    · exact h0
  unfold buildTable
  rw [assignMeta_eq_map]
  rw [List.getD_eq_getElem?_getD, List.getElem?_map, List.getElem?_map,
    List.getElem?_enum]
  have hkk : k < (skipRows fileRows (gamvIgnore nvarg ndir L)).length := by
    omega
  rw [List.getElem?_eq_getElem hkk]
  simp only [Option.map_some', Option.getD_some]
  have h1 : (skipRows fileRows (gamvIgnore nvarg ndir L)).getD k [] =
      (skipRows fileRows (gamvIgnore nvarg ndir L)).get ⟨k, hkk⟩ := by
    rw [List.getD_eq_getElem?_getD, List.getElem?_eq_getElem hkk]
    rfl
  have h2 : (npRepeat nvarg (ndir * L)).getD k 0 = k / (ndir * L) := by
    rw [List.getD_eq_getElem?_getD,
      npRepeat_getElem? nvarg (ndir * L) k (by rw [← Nat.mul_assoc]; exact hk)]
    rfl
  have h3 : (npTile (npRepeat ndir L) nvarg).getD k 0 = (k / L) % ndir := by
    rw [List.getD_eq_getElem?_getD,
      npTile_getElem? _ nvarg k (by rw [npRepeat_length, ← Nat.mul_assoc]; exact hk),
      npRepeat_length,
      npRepeat_getElem? ndir L (k % (ndir * L)) (Nat.mod_lt k hpos),
      Option.getD_some, Nat.mul_comm ndir L, Nat.mod_mul_right_div_self]
  rw [h1, h2, h3]
  rfl

theorem gamv_ok_analysis (params : GamvParams) (gslib_path : Option String)
    (silent : Bool) (posix : Bool) (engine : EngineBehavior) (t : List VgRow)
    (h : (gamv params gslib_path silent posix engine).result = Except.ok t) :
    ∃ ivparForced,
      forceCutoffs params.ivpar = Except.ok ivparForced ∧
      ivparForced = params.ivpar.map forceRow ∧
      t = cleanup (buildTable (hasVarianceCols ivparForced) ivparForced.length
            (effectiveMypar params).ivdir.length ((effectiveMypar params).nlag + 2)
            engine.outputRows params.ivpar) ∧
      GamvEffect.writeParFile "_xxx_.par"
          (serializePar (effectiveMypar params) ivparForced) ∈
        (gamv params gslib_path silent posix engine).effects := by
  unfold gamv at h ⊢
  cases hA : firstAssertFailure (effectiveMypar params)
  · cases hC : forceCutoffs (effectiveMypar params).ivpar
    · simp [hA, hC] at h
    · rename_i ivparForced
      by_cases he : engine.exitCode ≠ 0
      · simp [hA, hC, he] at h
      · simp only [hA, hC, if_neg he] at h ⊢
        refine ⟨ivparForced, ?_, ?_, ?_, ?_⟩
        · rw [← effectiveMypar_ivpar params]
          exact hC
        · rw [← effectiveMypar_ivpar params]
          exact forceCutoffsFrom_ok_eq _ 0 _ hC
        · cases h
          rfl
        · simp
  · simp [hA] at h

/-! ## Claims -/

/-- C6: in the Cleanup Pass, every row with pair count zero has its
variogram-function value and both means set to missing regardless of the
average-separation value; independently, every row with average separation
exactly zero has its variogram-function value alone set to missing; both
rules may fire on the same row, and no other cell of any row is changed. -/
theorem C6_cleanup_rules :
    (∀ t : List VgRow, cleanup t = t.map cleanupRow) ∧
    (∀ r : VgRow,
      (r.npairs = some 0 →
        (cleanupRow r).varFunct = none ∧ (cleanupRow r).meanTail = none ∧
          (cleanupRow r).meanHead = none) ∧
      (r.avgSep = some 0 → (cleanupRow r).varFunct = none) ∧
      (r.npairs ≠ some 0 →
        (cleanupRow r).meanTail = r.meanTail ∧ (cleanupRow r).meanHead = r.meanHead) ∧
      (r.npairs ≠ some 0 → r.avgSep ≠ some 0 → cleanupRow r = r) ∧
      ((cleanupRow r).lag = r.lag ∧ (cleanupRow r).avgSep = r.avgSep ∧
        (cleanupRow r).npairs = r.npairs ∧ (cleanupRow r).varTail = r.varTail ∧
        (cleanupRow r).varHead = r.varHead ∧ (cleanupRow r).variogram = r.variogram ∧
        (cleanupRow r).direction = r.direction ∧ (cleanupRow r).tail = r.tail ∧
        (cleanupRow r).head = r.head ∧ (cleanupRow r).vtype = r.vtype ∧
        (cleanupRow r).cut = r.cut)) := by
  refine ⟨fun t => rfl, fun r => ⟨?_, ?_, ?_, ?_, cleanupRow_preserves r⟩⟩ <;>
    unfold cleanupRow <;>
    by_cases h1 : r.npairs = some 0 <;> by_cases h2 : r.avgSep = some 0 <;>
      simp [h1, h2]

/-- Witness for C6 at a concrete row with pair count 0 and separation 3. -/
theorem C6_cleanup_rules_witness :
    (cleanupRow exRowPairsZero).varFunct = none ∧
      (cleanupRow exRowPairsZero).meanTail = none ∧
      (cleanupRow exRowPairsZero).meanHead = none :=
  (C6_cleanup_rules.2 exRowPairsZero).1 (by decide)

/-- C9: the Cleanup Pass is idempotent — applying it to an already-cleaned
table changes no cell. -/
theorem C9_cleanup_idempotent (t : List VgRow) : cleanup (cleanup t) = cleanup t := by
  unfold cleanup
  rw [List.map_map]
  exact List.map_congr_left (fun r _ => cleanupRow_idem r)

/-- C7 (code-bug evidence): the gate `if ~silent:` is truthy for both
boolean values of `silent` (Python `~True = -2`, `~False = -1`), so the
engine's stdout is echoed regardless of the verbosity flag — in particular
a successful run with `silent = True` still echoes it. -/
theorem C7_echo_gate_constant :
    (∀ s : Bool, echoesEngineStdout s = true) ∧
    GamvEffect.echo exEngineOk.stdout ∈
      (gamv exParams none true true exEngineOk).effects := by
  constructor
  · intro s; cases s <;> rfl
  · decide

/-- C1 counterexample: with three requested variograms of which exactly one
is of covariance type (3) and none of type 4, the parsed table schema does
not include the variance columns, refuting the claimed equivalence with
"some requested variogram has type 3". -/
theorem C1_counterexample :
    ¬ ((("variance tail" ∈ gamvColumns exC1ivpar) ∧
        ("variance head" ∈ gamvColumns exC1ivpar)) ↔
       ∃ r ∈ exC1ivpar, r.vtype = 3) := by
  decide

/-- C10: the caller's parameters dictionary is left unchanged by the whole
pipeline — all defaulting and overriding happens on the deep copy `mypar`
(or the local `ivpar` array), so after the call returns or raises the
parameters equal their value before the call. -/
theorem C10_parameters_unchanged (params : GamvParams) (gslib_path : Option String)
    (silent : Bool) (posix : Bool) (engine : EngineBehavior) :
    (gamv params gslib_path silent posix engine).finalParameters = params := by
  unfold gamv
  cases hA : firstAssertFailure (effectiveMypar params)
  · cases hC : forceCutoffs (effectiveMypar params).ivpar
    · simp [hA, hC]
    · simp only [hA, hC]
      split <;> rfl
  · simp [hA]

/-- C4: whenever the engine subprocess was actually invoked and exited with
a non-zero status, the call raises an EngineFailure whose message contains
the captured standard-error text verbatim (as a suffix) and no result table
is returned; with exit status zero, no EngineFailure is ever raised. -/
theorem C4_engine_failure (params : GamvParams) (gslib_path : Option String)
    (silent : Bool) (posix : Bool) (engine : EngineBehavior) :
    (engine.exitCode ≠ 0 →
      (∃ p f, GamvEffect.invokeEngine p f ∈
        (gamv params gslib_path silent posix engine).effects) →
      (gamv params gslib_path silent posix engine).result =
        Except.error (GamvError.engineFailure
          ("gslib declus NameError" ++ engine.stderr)) ∧
      ∃ pre, "gslib declus NameError" ++ engine.stderr = pre ++ engine.stderr) ∧
    (engine.exitCode = 0 →
      ∀ msg, (gamv params gslib_path silent posix engine).result ≠
        Except.error (GamvError.engineFailure msg)) := by
  unfold gamv
  cases hA : firstAssertFailure (effectiveMypar params)
  · cases hC : forceCutoffs (effectiveMypar params).ivpar
    · simp only [hA, hC]
      constructor
      · rintro hne ⟨p, f, hmem⟩
        exact absurd hmem (dataSourceEffects_no_invoke params p f)
      · intro _ msg h
        simp at h
    · simp only [hA, hC]
      constructor
      · intro hne _
        rw [if_pos hne]
        exact ⟨rfl, ⟨"gslib declus NameError", rfl⟩⟩
      · intro h0 msg
        rw [if_neg (by simp [h0])]
        simp
  · simp only [hA]
    constructor
    · rintro hne ⟨p, f, hmem⟩
      exact absurd hmem (dataSourceEffects_no_invoke params p f)
    · intro _ msg h
      simp at h

/-- Witness for C4: the failing engine run on the base configuration. -/
theorem C4_engine_failure_witness :
    (gamv exParams none false true exEngineFail).result =
      Except.error (GamvError.engineFailure
        ("gslib declus NameError" ++ exEngineFail.stderr)) ∧
    ∃ pre, "gslib declus NameError" ++ exEngineFail.stderr =
      pre ++ exEngineFail.stderr :=
  (C4_engine_failure exParams none false true exEngineFail).1 (by decide)
    ⟨"~/gslib/gamv", "_xxx_.par", by decide⟩

/-- C8: a configuration containing a variogram spec whose tail or head
variable index exceeds the number of variable columns, or whose type code
lies outside 1..10, fails validation with a ConfigurationError before the
parameter file is written or the engine is invoked. -/
theorem C8_validation_rejects (params : GamvParams) (gslib_path : Option String)
    (silent : Bool) (posix : Bool) (engine : EngineBehavior)
    (h : ∃ r ∈ params.ivpar,
      ((effectiveMypar params).ivar.length : Int) < r.tail ∨
      ((effectiveMypar params).ivar.length : Int) < r.head ∨
      ¬(([1, 2, 3, 4, 5, 6, 7, 8, 9, 10] : List Int).contains r.vtype = true)) :
    (∃ msg, (gamv params gslib_path silent posix engine).result =
      Except.error (GamvError.configError msg)) ∧
    (∀ n sp, GamvEffect.writeParFile n sp ∉
      (gamv params gslib_path silent posix engine).effects) ∧
    (∀ p f, GamvEffect.invokeEngine p f ∉
      (gamv params gslib_path silent posix engine).effects) := by
  have hbad : ∃ msg, firstAssertFailure (effectiveMypar params) = some msg := by
    apply firstAssertFailure_isSome_of_bad
    rw [effectiveMypar_ivpar]
    exact h
  obtain ⟨msg, hA⟩ := hbad
  unfold gamv
  simp only [hA]
  exact ⟨⟨msg, rfl⟩,
    fun n sp => dataSourceEffects_no_parfile params n sp,
    fun p f => dataSourceEffects_no_invoke params p f⟩

/-- Witness for C8: a spec with tail index 2 but only one variable column. -/
theorem C8_validation_rejects_witness :
    (∃ msg, (gamv exC8params none false true exEngineOk).result =
      Except.error (GamvError.configError msg)) ∧
    (∀ n sp, GamvEffect.writeParFile n sp ∉
      (gamv exC8params none false true exEngineOk).effects) ∧
    (∀ p f, GamvEffect.invokeEngine p f ∉
      (gamv exC8params none false true exEngineOk).effects) :=
  C8_validation_rejects exC8params none false true exEngineOk
    ⟨⟨2, 1, 1, none⟩, by decide, Or.inl (by decide)⟩

/-- C2: for every configuration with nvarg variograms, ndir directions and
nlag lags and a well-formed engine output, the result parser skips exactly
the header lines at file rows 0, nlag+3, 2*(nlag+3), ... (one before each
(variogram, direction) block), keeping exactly the data lines; the table
has exactly nvarg*ndir*(nlag+2) data rows before cleanup; and data row k
(0-based, headers excluded) is assigned variogram index k // (ndir*(nlag+2))
and direction index (k // (nlag+2)) mod ndir, with tail, head, type and
cutoff copied from the variogram_defs entry at that variogram index. -/
theorem C2_parse_reshape (nvarg ndir nlag : Nat) (hv : Bool)
    (header : Nat → Nat → List Rat) (data : Nat → Nat → Nat → List Rat)
    (defs : List IvparRow) (k : Nat)
    (hdefs : defs.length = nvarg)
    (hk : k < nvarg * ndir * (nlag + 2)) :
    gamvIgnore nvarg ndir (nlag + 2) =
      (List.range (nvarg * ndir)).map (fun j => j * (nlag + 3)) ∧
    skipRows (engineOutputFile nvarg ndir (nlag + 2) header data)
        (gamvIgnore nvarg ndir (nlag + 2)) =
      (gamvBlocks nvarg ndir (nlag + 2) header data).flatMap (fun b => b.2) ∧
    (buildTable hv nvarg ndir (nlag + 2)
        (engineOutputFile nvarg ndir (nlag + 2) header data) defs).length =
      nvarg * ndir * (nlag + 2) ∧
    ((buildTable hv nvarg ndir (nlag + 2)
        (engineOutputFile nvarg ndir (nlag + 2) header data) defs).getD k
          default).variogram = k / (ndir * (nlag + 2)) ∧
    ((buildTable hv nvarg ndir (nlag + 2)
        (engineOutputFile nvarg ndir (nlag + 2) header data) defs).getD k
          default).direction = (k / (nlag + 2)) % ndir ∧
    ((buildTable hv nvarg ndir (nlag + 2)
        (engineOutputFile nvarg ndir (nlag + 2) header data) defs).getD k
          default).tail = (defs.getD (k / (ndir * (nlag + 2))) default).tail ∧
    ((buildTable hv nvarg ndir (nlag + 2)
        (engineOutputFile nvarg ndir (nlag + 2) header data) defs).getD k
          default).head = (defs.getD (k / (ndir * (nlag + 2))) default).head ∧
    ((buildTable hv nvarg ndir (nlag + 2)
        (engineOutputFile nvarg ndir (nlag + 2) header data) defs).getD k
          default).vtype = (defs.getD (k / (ndir * (nlag + 2))) default).vtype ∧
    ((buildTable hv nvarg ndir (nlag + 2)
        (engineOutputFile nvarg ndir (nlag + 2) header data) defs).getD k
          default).cut = (defs.getD (k / (ndir * (nlag + 2))) default).cut := by
  have hpos : 0 < ndir * (nlag + 2) := by
    rcases Nat.eq_zero_or_pos (ndir * (nlag + 2)) with h0 | h0
    · rw [Nat.mul_assoc, h0, Nat.mul_zero] at hk
      omega
    · exact h0
  have hkept := kept_length nvarg ndir (nlag + 2) header data
  have hrow := buildTable_getD hv nvarg ndir (nlag + 2)
    (engineOutputFile nvarg ndir (nlag + 2) header data) defs k hkept hk
  have hk' : k < nvarg * (ndir * (nlag + 2)) := by
    rw [← Nat.mul_assoc]
    exact hk
  have hq : k / (ndir * (nlag + 2)) < defs.length := by
    rw [hdefs, Nat.div_lt_iff_lt_mul hpos]
    exact hk'
  obtain ⟨hvar, hdir, _, _, _, _, _, _, hmeta, _⟩ :=
    applyMetaTo_fields defs
      (mkRow hv ((skipRows (engineOutputFile nvarg ndir (nlag + 2) header data)
          (gamvIgnore nvarg ndir (nlag + 2))).getD k [])
        (k / (ndir * (nlag + 2))) ((k / (nlag + 2)) % ndir))
  obtain ⟨ht, hh, hty, hc⟩ := hmeta hq
  refine ⟨?_, parse_wellFormed nvarg ndir (nlag + 2) header data, ?_,
    hrow ▸ hvar, hrow ▸ hdir, hrow ▸ ht, hrow ▸ hh, hrow ▸ hty, hrow ▸ hc⟩
  · unfold gamvIgnore
    have hstop : nvarg * ndir * (nlag + 2) + ndir * nvarg =
        (nvarg * ndir) * (nlag + 3) := by ring
    rw [hstop]
    exact npArangeStep_exact (nvarg * ndir) (nlag + 3) (by omega)
  · unfold buildTable
    rw [assignMeta_eq_map, List.length_map, List.length_map, List.enum_length,
      hkept]

/-- Witness for C2 at nvarg = 2, ndir = 2, nlag = 1, data row k = 7. -/
theorem C2_parse_reshape_witness :
    ((buildTable false 2 2 3 (engineOutputFile 2 2 3 exHeader exData)
        exDefsC2).getD 7 default).variogram = 1 ∧
    ((buildTable false 2 2 3 (engineOutputFile 2 2 3 exHeader exData)
        exDefsC2).getD 7 default).direction = 0 ∧
    ((buildTable false 2 2 3 (engineOutputFile 2 2 3 exHeader exData)
        exDefsC2).getD 7 default).tail = 2 := by
  obtain ⟨_, _, _, hvar, hdir, ht, _, _, _⟩ :=
    C2_parse_reshape 2 2 1 false exHeader exData exDefsC2 7 (by decide) (by decide)
  exact ⟨hvar.trans (by decide), hdir.trans (by decide), ht.trans (by decide)⟩

/-- C3 counterexample: a configuration whose only variogram spec has type 1
and caller-supplied cutoff 5 passes validation, yet the `cut` metadata
column of the resulting table row holds 5, not the claimed null. -/
theorem C3_counterexample :
    ((resultTable (gamv exParams none false true exEngineOk)).getD 0 default).vtype = 1 ∧
    ((resultTable (gamv exParams none false true exEngineOk)).getD 0 default).cut = some 5 := by
  decide

/-- C3 amended: for every spec with type 9/10 and a null cutoff (the first
such index being `i`, the other asserts passing), validation fails before
the engine is invoked with a ConfigurationError whose message contains the
offending index; for every spec list without such a row the cutoff loop
succeeds, the rows of type 1..8 validating regardless of their cutoff and
having their cutoff forced to null in the serialized array — while the
`cut` metadata column of a successful call's Result Table carries the
caller-supplied cutoff of the matching spec, not null. -/
theorem C3_cutoff_validation :
    (∀ (params : GamvParams) (gslib_path : Option String) (silent : Bool)
        (posix : Bool) (engine : EngineBehavior) (i : Nat),
      firstAssertFailure (effectiveMypar params) = none →
      i < params.ivpar.length →
      9 ≤ (params.ivpar.getD i default).vtype →
      (params.ivpar.getD i default).cut = none →
      (∀ j, j < i → ¬(9 ≤ (params.ivpar.getD j default).vtype ∧
        (params.ivpar.getD j default).cut = none)) →
      (gamv params gslib_path silent posix engine).result =
        Except.error (GamvError.configError (cutErrMsg i)) ∧
      (∃ a b, cutErrMsg i = a ++ toString i ++ b) ∧
      (∀ p f, GamvEffect.invokeEngine p f ∉
        (gamv params gslib_path silent posix engine).effects)) ∧
    (∀ l : List IvparRow, firstBadCut l = none →
      forceCutoffs l = Except.ok (l.map forceRow) ∧
      ∀ r ∈ l, r.vtype < 9 → (forceRow r).cut = none) ∧
    (∀ (params : GamvParams) (gslib_path : Option String) (silent : Bool)
        (posix : Bool) (engine : EngineBehavior) (t : List VgRow),
      (gamv params gslib_path silent posix engine).result = Except.ok t →
      (∃ sp, GamvEffect.writeParFile "_xxx_.par" sp ∈
          (gamv params gslib_path silent posix engine).effects ∧
        sp.ivpar = params.ivpar.map forceRow) ∧
      (∀ r ∈ t, r.variogram < params.ivpar.length →
        r.cut = (params.ivpar.getD r.variogram default).cut)) := by
  refine ⟨?_, ?_, ?_⟩
  · intro params gslib_path silent posix engine i hA hi h9 hc hmin
    have hfb : firstBadCut params.ivpar = some i :=
      firstBadCut_spec params.ivpar i hi ⟨h9, hc⟩ hmin
    have hfc : forceCutoffs (effectiveMypar params).ivpar =
        Except.error (cutErrMsg i) := by
      rw [effectiveMypar_ivpar]
      have := forceCutoffsFrom_error params.ivpar 0 i hfb
      simpa [forceCutoffs] using this
    unfold gamv
    simp only [hA, hfc]
    refine ⟨by simp, ⟨"gslib varmap Error inparameter file: cut[", "]=None", rfl⟩, ?_⟩
    intro p f
    exact dataSourceEffects_no_invoke params p f
  · intro l hfb
    refine ⟨forceCutoffsFrom_ok l 0 hfb, ?_⟩
    intro r _ h9
    simp [forceRow, h9]
  · intro params gslib_path silent posix engine t h
    obtain ⟨ivparForced, _, hmap, htab, hmem⟩ :=
      gamv_ok_analysis params gslib_path silent posix engine t h
    constructor
    · exact ⟨serializePar (effectiveMypar params) ivparForced, hmem, by
        simp [serializePar, hmap]⟩
    · intro r hr hlt
      rw [htab] at hr
      unfold cleanup at hr
      rw [List.mem_map] at hr
      obtain ⟨r1, hr1, rfl⟩ := hr
      unfold buildTable at hr1
      rw [assignMeta_eq_map, List.mem_map] at hr1
      obtain ⟨r0, _, rfl⟩ := hr1
      obtain ⟨hvar, _, _, _, _, _, _, _, hmeta, _⟩ :=
        applyMetaTo_fields params.ivpar r0
      obtain ⟨_, _, _, _, _, _, _, _, _, _, hcut⟩ :=
        cleanupRow_preserves (applyMetaTo params.ivpar r0)
      obtain ⟨_, _, _, _, _, hvarc, _, _, _, _, _⟩ :=
        cleanupRow_preserves (applyMetaTo params.ivpar r0)
      rw [hvarc, hvar] at hlt
      rw [hcut, hvarc, hvar]
      exact (hmeta hlt).2.2.2

/-- Witness for C3: the indicator spec without cutoff at index 1 is
rejected before the engine runs; a type-1 spec with cutoff 5 validates. -/
theorem C3_cutoff_validation_witness :
    (gamv exC3badParams none false true exEngineOk).result =
      Except.error (GamvError.configError (cutErrMsg 1)) ∧
    forceCutoffs [(⟨1, 1, 1, some 5⟩ : IvparRow)] =
      Except.ok ([(⟨1, 1, 1, some 5⟩ : IvparRow)].map forceRow) := by
  constructor
  · exact (C3_cutoff_validation.1 exC3badParams none false true exEngineOk 1
      (by decide) (by decide) (by decide) (by decide)
      (by intro j hj; interval_cases j; decide)).1
  · exact (C3_cutoff_validation.2.1 [⟨1, 1, 1, some 5⟩] (by decide)).1

/-- C5 counterexample: for a call whose data source is an in-memory array
with 2 columns, the materialized file contains the three coordinate-name
lines `x`, `y`, `z` — not one column-name line per column. -/
theorem C5_counterexample :
    dataSourceEffects exArray2Params =
      [GamvEffect.writeDataFile "_xxx_.in"
        ["temp file ", "2", "x", "y", "z"] exRows2] ∧
    (dataFileColNames (ncolOf exRows2)).length ≠ ncolOf exRows2 := by
  decide

/-- C5 amended: for a call whose data source is an in-memory 2-D numeric
array with `ncol ≥ 3` columns, the coordinate columns are forced to 1, 2, 3
and the variable columns to 4..ncol in order, overriding caller-supplied
indices, and the array is materialized to a temporary delimited file whose
first line is a free-text title, second line the column count, followed by
one column-name line per column (`x`, `y`, `z`, `v1`, `v2`, ...), followed
by the numeric rows in the same column order (for `ncol < 3` the three
coordinate-name lines are still all written). -/
theorem C5_array_materialization (params : GamvParams) (rows : List (List Rat))
    (hd : params.datafl = DataSource.array rows) (hncol : 3 ≤ ncolOf rows) :
    (effectiveMypar params).icolx = 1 ∧
    (effectiveMypar params).icoly = 2 ∧
    (effectiveMypar params).icolz = 3 ∧
    (effectiveMypar params).ivar =
      (List.range (ncolOf rows - 3)).map (fun j => ((j + 4 : Nat) : Int)) ∧
    dataSourceEffects params =
      [GamvEffect.writeDataFile "_xxx_.in" (dataFileHeaderLines (ncolOf rows)) rows] ∧
    dataFileHeaderLines (ncolOf rows) =
      ["temp file ", toString (ncolOf rows)] ++ dataFileColNames (ncolOf rows) ∧
    (dataFileColNames (ncolOf rows)).length = ncolOf rows ∧
    dataFileColNames (ncolOf rows) =
      ["x", "y", "z"] ++
        (List.range (ncolOf rows - 3)).map (fun j => "v" ++ toString (j + 1)) := by
  have hads : applyDataSource params params =
      ({ params with
          datafl := DataSource.path "_xxx_.in"
          icolx := 1, icoly := 2, icolz := 3
          ivar := forcedIvar (ncolOf rows) },
       [GamvEffect.writeDataFile "_xxx_.in" (dataFileHeaderLines (ncolOf rows)) rows]) := by
    unfold applyDataSource
    rw [hd]
  obtain ⟨hx, hy, hz, hv⟩ := applyOutfl_preserves (applyDataSource params params).1
  unfold effectiveMypar
  rw [hx, hy, hz, hv, hads]
  refine ⟨rfl, rfl, rfl, forcedIvar_eq (ncolOf rows), ?_, rfl, ?_, dataFileColNames_eq _⟩
  · unfold dataSourceEffects
    rw [hads]
  · rw [dataFileColNames_eq]
    simp
    omega

/-- Witness for C5 at the 4-column array configuration. -/
theorem C5_array_materialization_witness :
    (effectiveMypar exArray4Params).icolx = 1 ∧
    (effectiveMypar exArray4Params).ivar =
      (List.range (ncolOf exRows4 - 3)).map (fun j => ((j + 4 : Nat) : Int)) ∧
    (dataFileColNames (ncolOf exRows4)).length = ncolOf exRows4 := by
  obtain ⟨h1, _, _, h4, _, _, h7, _⟩ :=
    C5_array_materialization exArray4Params exRows4 rfl (by decide)
  exact ⟨h1, h4, h7⟩

/-- C1 amended: the parsed Result Table includes the two extra columns
`variance tail` and `variance head` iff at least one requested variogram
spec is of correlogram type (type code 4). -/
theorem C1_amended (ivpar : List IvparRow) :
    (("variance tail" ∈ gamvColumns ivpar) ∧
      ("variance head" ∈ gamvColumns ivpar)) ↔
      ∃ r ∈ ivpar, r.vtype = 4 := by
  unfold gamvColumns hasVarianceCols
  by_cases h : ivpar.any (fun r => r.vtype == 4) = true
  · rw [if_pos h]
    simp only [List.any_eq_true, beq_iff_eq] at h
    simpa using h
  · rw [if_neg h]
    simp only [List.any_eq_true, beq_iff_eq] at h
    push_neg at h
    constructor
    · intro hmem
      exact absurd hmem.1 (by decide)
    · rintro ⟨r, hr, hr4⟩
      exact absurd hr4 (h r hr)

end Gamv
